import Mathlib

/-!
Verification of the Oiduna real-time loop engine against its specification.

This file is a shallow embedding, in Lean 4, of the parts of the Oiduna
repository that the checked properties talk about:

* `oiduna_core/ir/*`            — the session IR (Environment, Track, EventSequence, …)
* `oiduna_loop/state/runtime_state.py` — `Position`, `PendingApply`, `RuntimeState`
* `oiduna_scheduler/scheduler.py`      — `MessageScheduler`
* `oiduna_loop/engine/note_scheduler.py` — `NoteScheduler.process_pending_note_offs`
* `oiduna_loop/engine/clock_generator.py` — the drift-handling region of `run_clock_loop`
* `oiduna_loop/engine/loop_engine.py`  — `start`, `_handle_session`, `_handle_bpm`,
  and the drift-handling region of `_step_loop`

Modelling conventions:

* Python `float` is modelled as `ℚ` (the code only compares, adds, multiplies and
  divides times and tempi; no claim depends on rounding).  Python `int` is `ℤ` or
  `ℕ` where the source guarantees non-negativity (steps, counters).
* Python `dict[str, α]` is modelled as an insertion-ordered association list
  `Dict α`; `dict.update` and key filtering are translated entry by entry.
* In-place mutation is modelled by explicit state passing.  A Python method that
  can raise returns `State × Except PyErr α`: the returned state carries exactly
  the mutations performed before the raise (Python objects keep such partial
  mutations when an exception propagates).
* Python leading-underscore attribute names are kept without the underscore
  (`_effective` becomes `effective`, `_step_count` becomes `step_count`, …).
* `time.perf_counter()` / `time.time()` reads are passed in as explicit `now`
  arguments.
-/

namespace Oiduna

/-- Python `AttributeError` (the only exception class the modelled code paths
can actually raise; validation errors are returned as values, not raised). -/
inductive PyErr where
  | attributeError
deriving DecidableEq

/-- Source `dict[str, α]`: insertion-ordered association list with (in the source)
unique keys. -/
abbrev Dict (α : Type) : Type := List (String × α)

namespace Dict

/-- Source `d[k]` / `d.get(k)`: first entry with the given key. -/
def lookup {α : Type} : Dict α → String → Option α
  | [], _ => none
  | p :: rest, k => if p.1 = k then some p.2 else lookup rest k

/-- Source `k in d`. -/
def hasKey {α : Type} (d : Dict α) (k : String) : Bool :=
  (lookup d k).isSome

/-- Source `d[k] = v`: replace the value in place if the key exists, else append. -/
def insert {α : Type} (d : Dict α) (k : String) (v : α) : Dict α :=
  if hasKey d k then
    d.map (fun p => if p.1 = k then (k, v) else p)
  else
    d ++ [(k, v)]

/-- Source `merged = dict(base); merged.update(ov)`: existing keys keep their position
and take the override value; keys new to `base` are appended in `ov` order. -/
def update {α : Type} (base ov : Dict α) : Dict α :=
  (base.map (fun p =>
    match lookup ov p.1 with
    | some v => (p.1, v)
    | none => p))
  ++ ov.filter (fun q => ¬ hasKey base q.1)

end Dict

/-! ## Session IR (`oiduna_core/ir`) -/

/-- Source `oiduna_core/ir/environment.py` `Chord`. -/
structure Chord where
  name : String
  length : Option ℤ := none
deriving DecidableEq

/-- Source `oiduna_core/constants/steps.py` `LOOP_STEPS` (fixed 256). -/
def LOOP_STEPS : ℕ := 256

/-- Source `STEPS_PER_BEAT` (runtime_state.py, value 4). -/
def STEPS_PER_BEAT : ℕ := 4

/-- Source `STEPS_PER_BAR` (runtime_state.py, value 16). -/
def STEPS_PER_BAR : ℕ := 16

/-- Source `oiduna_core/ir/environment.py` `Environment`. -/
structure Environment where
  bpm : ℚ := 120
  scale : String := "C_major"
  default_gate : ℚ := 1
  swing : ℚ := 0
  loop_steps : ℕ := LOOP_STEPS
  chords : List Chord := []
deriving DecidableEq

/-- Source `oiduna_core/ir/sequence.py` `Event`. -/
structure Event where
  step : ℕ
  velocity : ℚ := 1
  note : Option ℤ := none
  gate : ℚ := 1
deriving DecidableEq

/-- Source `oiduna_core/ir/sequence.py` `EventSequence`.  The `_step_index` attribute
is a cache derived from `_events` (built by `_build_index`); only the event
list is state. -/
structure EventSequence where
  track_id : String
  events : List Event := []
deriving DecidableEq

/-- Source `oiduna_core/ir/send.py` `Send` (`__post_init__` clamps `amount` to [0,1];
we store the already-clamped value). -/
structure Send where
  target : String
  amount : ℚ := 0
deriving DecidableEq

/-- Source `oiduna_core/modulation/modulation.py` `Modulation`; its `signal` is a
`StepBuffer`, i.e. a buffer of float samples, modelled as the sample list. -/
structure Modulation where
  target_param : String
  signal : List ℚ := []
deriving DecidableEq

/-- Source `oiduna_core/ir/track.py` `TrackParams`.  Note: this record has NO `orbit`
field (the v5 source moved orbit out of `TrackParams`); `params` values are an
untyped bag modelled as a string dictionary in `extra_params`. -/
structure TrackParams where
  s : String
  s_path : String := ""
  n : ℤ := 0
  gain : ℚ := 1
  pan : ℚ := 1/2
  speed : ℚ := 1
  begin : ℚ := 0
  «end» : ℚ := 1
  cut : Option ℤ := none
  legato : Option ℚ := none
  extra_params : Dict String := []
deriving DecidableEq

/-- Source `oiduna_core/ir/track.py` `FxParams`. -/
structure FxParams where
  cutoff : Option ℚ := none
  resonance : Option ℚ := none
  hcutoff : Option ℚ := none
  hresonance : Option ℚ := none
  bandf : Option ℚ := none
  bandq : Option ℚ := none
  room : Option ℚ := none
  size : Option ℚ := none
  dry : Option ℚ := none
  delay_send : Option ℚ := none
  delay_time : Option ℚ := none
  delay_feedback : Option ℚ := none
  shape : Option ℚ := none
  crush : Option ℚ := none
  coarse : Option ℚ := none
  attack : Option ℚ := none
  hold : Option ℚ := none
  release : Option ℚ := none
deriving DecidableEq

/-- Source `oiduna_core/ir/track.py` `TrackFxParams` (tone-shaping effects; every
field optional; `vowel` is the only string-valued one). -/
structure TrackFxParams where
  cutoff : Option ℚ := none
  resonance : Option ℚ := none
  hcutoff : Option ℚ := none
  hresonance : Option ℚ := none
  bandf : Option ℚ := none
  bandq : Option ℚ := none
  vowel : Option String := none
  shape : Option ℚ := none
  crush : Option ℚ := none
  coarse : Option ℚ := none
  krush : Option ℚ := none
  kcutoff : Option ℚ := none
  triode : Option ℚ := none
  attack : Option ℚ := none
  hold : Option ℚ := none
  release : Option ℚ := none
  tremolo_rate : Option ℚ := none
  tremolo_depth : Option ℚ := none
  phaser_rate : Option ℚ := none
  phaser_depth : Option ℚ := none
  detune : Option ℚ := none
  accelerate : Option ℚ := none
  psrate : Option ℚ := none
  psdisp : Option ℚ := none
  freeze : Option ℚ := none
  smear : Option ℚ := none
  binshift : Option ℚ := none
  comb : Option ℚ := none
  scram : Option ℚ := none
  hbrick : Option ℚ := none
  lbrick : Option ℚ := none
  enhance : Option ℚ := none
  tsdelay : Option ℚ := none
  xsdelay : Option ℚ := none
  ring : Option ℚ := none
  ringf : Option ℚ := none
  ringdf : Option ℚ := none
  squiz : Option ℚ := none
  waveloss : Option ℚ := none
  octer : Option ℚ := none
  octersub : Option ℚ := none
  octersubsub : Option ℚ := none
  fshift : Option ℚ := none
  fshiftnote : Option ℚ := none
  fshiftphase : Option ℚ := none
  djf : Option ℚ := none
  cthresh : Option ℚ := none
  cratio : Option ℚ := none
  cattack : Option ℚ := none
  crelease : Option ℚ := none
  cgain : Option ℚ := none
  cknee : Option ℚ := none
  panspread : Option ℚ := none
deriving DecidableEq

/-- Source `oiduna_core/ir/track.py` `TrackMeta`. -/
structure TrackMeta where
  track_id : String
  range_id : ℤ := 2
  mute : Bool := false
  solo : Bool := false
deriving DecidableEq

/-- Source `oiduna_core/ir/track.py` `Track`. -/
structure Track where
  meta : TrackMeta
  params : TrackParams
  fx : FxParams := {}
  track_fx : TrackFxParams := {}
  sends : List Send := []
  modulations : Dict Modulation := []
deriving DecidableEq

/-- Source `oiduna_core/ir/track_midi.py` `TrackMidi` (`cc_modulations` is keyed by
CC number). -/
structure TrackMidi where
  track_id : String
  channel : ℤ
  velocity : ℤ := 127
  transpose : ℤ := 0
  mute : Bool := false
  solo : Bool := false
  cc_modulations : List (ℤ × Modulation) := []
  pitch_bend_modulation : Option Modulation := none
  aftertouch_modulation : Option Modulation := none
  velocity_modulation : Option Modulation := none
deriving DecidableEq

/-- Source `oiduna_core/ir/mixer_line.py` `MixerLineDynamics`. -/
structure MixerLineDynamics where
  limiter : Bool := true
  limiter_type : ℤ := 1
  compression_ratio : ℚ := 1
  compression_threshold : ℚ := 1
deriving DecidableEq

/-- Source `oiduna_core/ir/mixer_line.py` `MixerLineFx`. -/
structure MixerLineFx where
  reverb_room : ℚ := 0
  reverb_size : ℚ := 1/2
  reverb_dry : ℚ := 1
  delay_send : ℚ := 0
  delay_time : ℚ := 3/8
  delay_feedback : ℚ := 2/5
  leslie_rate : ℚ := 0
  leslie_size : ℚ := 0
deriving DecidableEq

/-- Source `oiduna_core/ir/mixer_line.py` `MixerLine`. -/
structure MixerLine where
  name : String
  «include» : List String := []
  volume : ℚ := 1
  pan : ℚ := 1/2
  mute : Bool := false
  solo : Bool := false
  output : ℤ := 0
  dynamics : MixerLineDynamics := {}
  fx : MixerLineFx := {}
deriving DecidableEq

/-- Source `oiduna_core/ir/scene.py` `Scene`. -/
structure Scene where
  name : String
  environment : Option Environment := none
  tracks : Dict Track := []
  tracks_midi : Dict TrackMidi := []
  sequences : Dict EventSequence := []
deriving DecidableEq

/-- Source `oiduna_core/ir/session.py` `ApplyTiming` (string literal type). -/
inductive ApplyTiming where
  | now
  | beat
  | bar
  | seq
deriving DecidableEq

/-- Source `oiduna_core/ir/session.py` `ApplyCommand`. -/
structure ApplyCommand where
  timing : ApplyTiming
  track_ids : List String := []
  scene_name : Option String := none
deriving DecidableEq

/-- Source `oiduna_core/ir/session.py` `CompiledSession`. -/
structure CompiledSession where
  environment : Environment := {}
  tracks : Dict Track := []
  tracks_midi : Dict TrackMidi := []
  mixer_lines : Dict MixerLine := []
  sequences : Dict EventSequence := []
  scenes : Dict Scene := []
  apply : Option ApplyCommand := none
deriving DecidableEq

/-! ## RuntimeState (`oiduna_loop/state/runtime_state.py`) -/

/-- Source `PlaybackState` enumeration. -/
inductive PlaybackState where
  | stopped
  | playing
  | paused
deriving DecidableEq

/-- Source `Position` dataclass. -/
structure Position where
  step : ℕ := 0
  bar : ℕ := 0
  beat : ℕ := 0
  timestamp : ℚ := 0
deriving DecidableEq

/-- Source `Position.advance(loop_steps)`; `t` is the `time.time()` read. -/
def Position.advance (p : Position) (loop_steps : ℕ) (t : ℚ) : Position :=
  let step := (p.step + 1) % loop_steps
  { step := step,
    beat := (step / STEPS_PER_BEAT) % STEPS_PER_BEAT,
    bar := step / STEPS_PER_BAR,
    timestamp := t }

/-- Source `Position.reset()`; `t` is the `time.time()` read. -/
def Position.reset (_p : Position) (t : ℚ) : Position :=
  { step := 0, bar := 0, beat := 0, timestamp := t }

/-- Source `PendingApply` dataclass. -/
structure PendingApply where
  timing : ApplyTiming
  session : CompiledSession
  track_ids : List String
  scene_name : Option String
  received_at : ℚ
  passed_non_zero : Bool := false
deriving DecidableEq

/-- Source `RuntimeState` dataclass (Python underscore-private fields written without
the underscore; `step_duration` and `cps` are `_step_duration`/`_cps`,
`effective` is the `_effective` cache). -/
structure RuntimeState where
  active_scene_name : Option String := none
  scene_state : Option CompiledSession := none
  live_overrides : Option CompiledSession := none
  effective : Option CompiledSession := none
  position : Position := {}
  playback_state : PlaybackState := PlaybackState.stopped
  pending : Option PendingApply := none
  step_duration : ℚ := 1/8
  cps : ℚ := 1/2
deriving DecidableEq

/-- Python truthiness of an `str | None` value (`None` and `""` are falsy). -/
def optStrTruthy : Option String → Bool
  | none => false
  | some s => s ≠ ""

/-- Source `RuntimeState.playing` property. -/
def RuntimeState.playing (st : RuntimeState) : Bool :=
  st.playback_state = PlaybackState.playing

/-- Source `RuntimeState._merge_environment` (override wins for non-default values;
`loop_steps` is forced to `LOOP_STEPS`; `chords` uses list truthiness). -/
def RuntimeState.merge_environment (base ov : Environment) : Environment :=
  { bpm := if ov.bpm ≠ 120 then ov.bpm else base.bpm,
    scale := if ov.scale ≠ "C_major" then ov.scale else base.scale,
    default_gate := if ov.default_gate ≠ 1 then ov.default_gate else base.default_gate,
    swing := if ov.swing ≠ 0 then ov.swing else base.swing,
    loop_steps := LOOP_STEPS,
    chords := if ov.chords ≠ [] then ov.chords else base.chords }

/-- Source `RuntimeState._merge_track`.  The source constructs `merged_params` by
reading, in order, `override.params.s, s_path, n, gain, pan, speed, begin, end`
and then `override.params.orbit`; `TrackParams` (oiduna_core/ir/track.py)
defines no attribute `orbit`, so that attribute access raises `AttributeError`
unconditionally, before any merged value is produced.  Every call to this
method therefore raises.  (The repository's own suite, e.g.
`test_runtime_state.py::test_merge_tracks` and the `orbit=` uses in
`test_helpers.py` and `oiduna_api/routes/tracks.py`, expects the field to
exist.) -/
def RuntimeState.merge_track (_base _override : Track) : Except PyErr Track :=
  Except.error PyErr.attributeError

/-- The `merged_tracks` loop of `RuntimeState._deep_merge`:
start from `dict(base.tracks)` and fold the override entries in, calling
`_merge_track` for ids already present. -/
def RuntimeState.merge_tracks_dict (base ov : Dict Track) : Except PyErr (Dict Track) :=
  ov.foldlM
    (fun merged p =>
      match Dict.lookup merged p.1 with
      | some t => do
          let m ← RuntimeState.merge_track t p.2
          pure (Dict.insert merged p.1 m)
      | none => pure (Dict.insert merged p.1 p.2))
    base

/-- Source `RuntimeState._deep_merge`. -/
def RuntimeState.deep_merge (base ov : CompiledSession) : Except PyErr CompiledSession := do
  let merged_env := RuntimeState.merge_environment base.environment ov.environment
  let merged_tracks ← RuntimeState.merge_tracks_dict base.tracks ov.tracks
  pure
    { environment := merged_env,
      tracks := merged_tracks,
      tracks_midi := Dict.update base.tracks_midi ov.tracks_midi,
      mixer_lines := Dict.update base.mixer_lines ov.mixer_lines,
      sequences := Dict.update base.sequences ov.sequences,
      scenes := Dict.update base.scenes ov.scenes,
      apply := ov.apply.orElse (fun _ => base.apply) }

/-- The pure part of `RuntimeState.get_effective`: which session the merge of
the two layers produces (the four `None` cases of the source, then
`_deep_merge`). -/
def RuntimeState.compute_effective (st : RuntimeState) : Except PyErr CompiledSession :=
  match st.scene_state, st.live_overrides with
  | none, none => Except.ok {}
  | none, some lo => Except.ok lo
  | some sc, none => Except.ok sc
  | some sc, some lo => RuntimeState.deep_merge sc lo

/-- Source `RuntimeState.get_effective`.  On a cache hit it returns the cached
session unchanged.  On a miss it computes the merge, stores it in
`_effective` and runs `_update_timing()` (whose inner `self.bpm` read then
hits the fresh cache), i.e. it also refreshes `_step_duration` and `_cps`
from the merged environment's bpm.  If the merge raises, nothing has been
assigned and the state is returned unchanged. -/
def RuntimeState.get_effective (st : RuntimeState) :
    RuntimeState × Except PyErr CompiledSession :=
  match st.effective with
  | some eff => (st, Except.ok eff)
  | none =>
    match RuntimeState.compute_effective st with
    | Except.error e => (st, Except.error e)
    | Except.ok eff =>
      ({ st with
          effective := some eff,
          step_duration := 60 / eff.environment.bpm / 4,
          cps := eff.environment.bpm / 60 / 4 },
       Except.ok eff)

/-- Source `RuntimeState.bpm` property getter (`get_effective().environment.bpm`).
There is no setter for this property. -/
def RuntimeState.bpm_property (st : RuntimeState) : RuntimeState × Except PyErr ℚ :=
  match RuntimeState.get_effective st with
  | (st', Except.error e) => (st', Except.error e)
  | (st', Except.ok eff) => (st', Except.ok eff.environment.bpm)

/-- Source `RuntimeState._update_timing` (reads `self.bpm`, then sets
`_step_duration = 60/bpm/4` and `_cps = bpm/60/4`). -/
def RuntimeState.update_timing (st : RuntimeState) : RuntimeState × Except PyErr Unit :=
  match RuntimeState.get_effective st with
  | (st', Except.error e) => (st', Except.error e)
  | (st', Except.ok eff) =>
    ({ st' with
        step_duration := 60 / eff.environment.bpm / 4,
        cps := eff.environment.bpm / 60 / 4 },
     Except.ok ())

/-- Source `RuntimeState.set_bpm` (clamp to [1, 999]; rebuild the live-override layer
with the new environment; invalidate the cache; update timing). -/
def RuntimeState.set_bpm (st : RuntimeState) (bpm : ℚ) : RuntimeState × Except PyErr Unit :=
  let bpm := max 1 (min 999 bpm)
  match RuntimeState.get_effective st with
  | (st1, Except.error e) => (st1, Except.error e)
  | (st1, Except.ok eff) =>
    let new_env : Environment :=
      { bpm := bpm,
        scale := eff.environment.scale,
        default_gate := eff.environment.default_gate,
        swing := eff.environment.swing,
        loop_steps := LOOP_STEPS,
        chords := eff.environment.chords }
    let lo' : CompiledSession :=
      match st1.live_overrides with
      | none => { environment := new_env }
      | some lo =>
        { environment := new_env,
          tracks := lo.tracks,
          tracks_midi := lo.tracks_midi,
          mixer_lines := lo.mixer_lines,
          sequences := lo.sequences,
          scenes := lo.scenes,
          apply := lo.apply }
    RuntimeState.update_timing { st1 with live_overrides := some lo', effective := none }

/-- Source `RuntimeState.apply_scene` (`scene.environment or Environment()` keeps the
scene's environment when present — dataclasses are always truthy — else the
default environment). -/
def RuntimeState.apply_scene (st : RuntimeState) (scene_name : String) :
    RuntimeState × Except PyErr Bool :=
  match RuntimeState.get_effective st with
  | (st1, Except.error e) => (st1, Except.error e)
  | (st1, Except.ok eff) =>
    match Dict.lookup eff.scenes scene_name with
    | none => (st1, Except.ok false)
    | some scene =>
      let st2 :=
        { st1 with
            active_scene_name := some scene_name,
            scene_state := some
              { environment := scene.environment.getD {},
                tracks := scene.tracks,
                tracks_midi := scene.tracks_midi,
                sequences := scene.sequences,
                scenes := eff.scenes },
            live_overrides := none,
            effective := none }
      match RuntimeState.update_timing st2 with
      | (st3, Except.error e) => (st3, Except.error e)
      | (st3, Except.ok _) => (st3, Except.ok true)

/-- Source `RuntimeState.apply_override`. -/
def RuntimeState.apply_override (st : RuntimeState) (ov : CompiledSession) :
    RuntimeState × Except PyErr Unit :=
  match st.live_overrides with
  | none =>
    RuntimeState.update_timing { st with live_overrides := some ov, effective := none }
  | some lo =>
    match RuntimeState.deep_merge lo ov with
    | Except.error e => (st, Except.error e)
    | Except.ok merged =>
      RuntimeState.update_timing
        { st with live_overrides := some merged, effective := none }

/-- Source `RuntimeState.load_session`. -/
def RuntimeState.load_session (st : RuntimeState) (session : CompiledSession) :
    RuntimeState × Except PyErr Unit :=
  RuntimeState.update_timing
    { st with
        scene_state := some session,
        live_overrides := none,
        active_scene_name := none,
        effective := none }

/-- Source `RuntimeState.advance_step`: advance the position by one step (modulo
`LOOP_STEPS`) and, when a pending apply with `"seq"` timing exists, latch its
`passed_non_zero` flag whenever the new step is non-zero.  `t` is the
`time.time()` read stored in `position.timestamp`. -/
def RuntimeState.advance_step (st : RuntimeState) (t : ℚ) : RuntimeState :=
  let st1 := { st with position := st.position.advance LOOP_STEPS t }
  match st1.pending with
  | some p =>
    if p.timing = ApplyTiming.seq ∧ 0 < st1.position.step then
      { st1 with pending := some { p with passed_non_zero := true } }
    else st1
  | none => st1

/-- Source `RuntimeState.reset_position`. -/
def RuntimeState.reset_position (st : RuntimeState) (t : ℚ) : RuntimeState :=
  { st with position := st.position.reset t }

/-- Source `RuntimeState.set_pending` (a fresh `PendingApply` always starts with
`passed_non_zero = False`; `ra` is the `time.time()` default of
`received_at`). -/
def RuntimeState.set_pending (st : RuntimeState) (session : CompiledSession)
    (timing : ApplyTiming) (track_ids : List String) (scene_name : Option String)
    (ra : ℚ) : RuntimeState :=
  { st with
      pending := some
        { timing := timing,
          session := session,
          track_ids := track_ids,
          scene_name := scene_name,
          received_at := ra,
          passed_non_zero := false } }

/-- Source `RuntimeState.should_apply_pending`. -/
def RuntimeState.should_apply_pending (st : RuntimeState) : Bool :=
  match st.pending with
  | none => false
  | some p =>
    let step := st.position.step
    match p.timing with
    | ApplyTiming.now => true
    | ApplyTiming.beat => step % STEPS_PER_BEAT == 0
    | ApplyTiming.bar => step % STEPS_PER_BAR == 0
    | ApplyTiming.seq => step == 0 && p.passed_non_zero

/-- Source `RuntimeState._clear_non_specified_events`: build an override whose
sequences are empty `EventSequence`s for every effective sequence id not in
`specified_ids`, and apply it (only when that override is non-empty). -/
def RuntimeState.clear_non_specified_events (st : RuntimeState)
    (specified_ids : List String) : RuntimeState × Except PyErr Unit :=
  match RuntimeState.get_effective st with
  | (st1, Except.error e) => (st1, Except.error e)
  | (st1, Except.ok eff) =>
    let empty_sequences : Dict EventSequence :=
      (eff.sequences.filter (fun p => ¬ specified_ids.contains p.1)).map
        (fun p => (p.1, { track_id := p.1, events := [] }))
    if empty_sequences.isEmpty then (st1, Except.ok ())
    else RuntimeState.apply_override st1 { sequences := empty_sequences }

/-- Source `RuntimeState._apply_partial`: filter the submitted session down to the
named tracks, apply it as an override, then clear the events of all other
tracks. -/
def RuntimeState.apply_partial (st : RuntimeState) (session : CompiledSession)
    (track_ids : List String) : RuntimeState × Except PyErr Unit :=
  let partial_session : CompiledSession :=
    { environment := session.environment,
      tracks := session.tracks.filter (fun p => track_ids.contains p.1),
      tracks_midi := session.tracks_midi.filter (fun p => track_ids.contains p.1),
      sequences := session.sequences.filter (fun p => track_ids.contains p.1) }
  match RuntimeState.apply_override st partial_session with
  | (st1, Except.error e) => (st1, Except.error e)
  | (st1, Except.ok _) => RuntimeState.clear_non_specified_events st1 track_ids

/-- Source `RuntimeState.execute_pending`: scene applies take precedence (Python
truthiness of `scene_name`), then full applies (empty `track_ids`), then
partial applies; on normal completion the pending slot is cleared and `True`
returned. -/
def RuntimeState.execute_pending (st : RuntimeState) : RuntimeState × Except PyErr Bool :=
  match st.pending with
  | none => (st, Except.ok false)
  | some p =>
    let step1 : RuntimeState × Except PyErr Unit :=
      if optStrTruthy p.scene_name then
        match RuntimeState.apply_scene st (p.scene_name.getD "") with
        | (st1, Except.error e) => (st1, Except.error e)
        | (st1, Except.ok _) => (st1, Except.ok ())
      else if p.track_ids.isEmpty then
        if optStrTruthy st.active_scene_name then
          RuntimeState.apply_override st p.session
        else
          RuntimeState.load_session st p.session
      else
        RuntimeState.apply_partial st p.session p.track_ids
    match step1 with
    | (st1, Except.error e) => (st1, Except.error e)
    | (st1, Except.ok _) => ({ st1 with pending := none }, Except.ok true)

/-! ## MessageScheduler (`oiduna_scheduler/scheduler.py`,
`oiduna_scheduler/scheduler_models.py`) -/

/-- A value stored in a message's `params` bag (`dict[str, Any]`; the engine
makes no semantic decisions about its contents, so a tagged union of the
JSON-serialisable kinds suffices). -/
inductive PVal where
  | str (s : String)
  | int (i : ℤ)
  | num (q : ℚ)
  | bool (b : Bool)
deriving DecidableEq

/-- Source `ScheduledMessage` (frozen dataclass). -/
structure ScheduledMessage where
  destination_id : String
  cycle : ℚ
  step : ℕ
  params : Dict PVal
deriving DecidableEq

/-- Source `ScheduledMessageBatch` (frozen dataclass). -/
structure ScheduledMessageBatch where
  messages : List ScheduledMessage
  bpm : ℚ := 120
  pattern_length : ℚ := 4
deriving DecidableEq

/-- Source `MessageScheduler` state: `_messages_by_step` is a
`defaultdict(list)` mapping step to the messages indexed under it, modelled as
a total function that is `[]` outside the populated keys. -/
structure MessageScheduler where
  messages_by_step : ℕ → List ScheduledMessage
  bpm : ℚ
  pattern_length : ℚ

/-- Source `MessageScheduler.__init__`. -/
def MessageScheduler.init : MessageScheduler :=
  { messages_by_step := fun _ => [], bpm := 120, pattern_length := 4 }

/-- Source `MessageScheduler.load_messages`: clear the index, store the batch
metadata and re-index every message of the batch under `msg.step`
(`self._messages_by_step[msg.step].append(msg)`). -/
def MessageScheduler.load_messages (_sch : MessageScheduler)
    (batch : ScheduledMessageBatch) : MessageScheduler :=
  { messages_by_step :=
      batch.messages.foldl
        (fun m msg => fun s => if s = msg.step then m s ++ [msg] else m s)
        (fun _ => []),
    bpm := batch.bpm,
    pattern_length := batch.pattern_length }

/-- Source `MessageScheduler.get_messages_at_step`
(`self._messages_by_step.get(step, [])`). -/
def MessageScheduler.get_messages_at_step (sch : MessageScheduler) (step : ℕ) :
    List ScheduledMessage :=
  sch.messages_by_step step

/-! ## NoteScheduler (`oiduna_loop/engine/note_scheduler.py`) -/

/-- Source `PendingNoteOff` dataclass. -/
structure PendingNoteOff where
  off_time : ℚ
  channel : ℤ
  note : ℤ
deriving DecidableEq

/-- The reverse-iteration removal loop of
`NoteScheduler.process_pending_note_offs`: walk `_pending_note_offs` from the
last index down to 0, send a note-off and `pop` the entry whenever
`current_time >= pending.off_time`.  The recursion processes the tail (higher
indices) first, so the produced send list is in decreasing index order,
exactly as the source loop emits them; the kept entries stay in order. -/
def NoteScheduler.process_due (now : ℚ) :
    List PendingNoteOff → List PendingNoteOff × List (ℤ × ℤ)
  | [] => ([], [])
  | p :: rest =>
    let r := NoteScheduler.process_due now rest
    if p.off_time ≤ now then (r.1, r.2 ++ [(p.channel, p.note)])
    else (p :: r.1, r.2)

/-- Source `NoteScheduler.process_pending_note_offs`: if the MIDI output is not
connected the method returns immediately (nothing sent, nothing removed);
otherwise it runs the removal loop at `current_time = now`.  The result is
the new `_pending_note_offs` list together with the `(channel, note)`
note-offs sent. -/
def NoteScheduler.process_pending_note_offs (connected : Bool) (now : ℚ)
    (pending : List PendingNoteOff) : List PendingNoteOff × List (ℤ × ℤ) :=
  if connected then NoteScheduler.process_due now pending
  else (pending, [])

/-! ## ClockGenerator (`oiduna_loop/engine/clock_generator.py`) -/

/-- Source `ClockGenerator.DRIFT_RESET_THRESHOLD_MS` (30 ms). -/
def CLOCK_DRIFT_RESET_THRESHOLD_MS : ℚ := 30

/-- Source `ClockGenerator.DRIFT_WARNING_THRESHOLD_MS` (15 ms). -/
def CLOCK_DRIFT_WARNING_THRESHOLD_MS : ℚ := 15

/-- Source `ClockGenerator.PULSES_PER_STEP` (24 PPQ / 4 steps per quarter). -/
def PULSES_PER_STEP : ℕ := 6

/-- The clock generator's `_drift_stats` dictionary. -/
structure ClockDriftStats where
  reset_count : ℕ := 0
  max_drift_ms : ℚ := 0
deriving DecidableEq

/-- Source `ClockGenerator` mutable state (underscore-private fields written without
the underscore). -/
structure ClockGenerator where
  clock_anchor_time : Option ℚ := none
  pulse_count : ℕ := 0
  suppress_flag : Bool := false
  drift_stats : ClockDriftStats := {}
deriving DecidableEq

/-- Source `ClockGenerator.calculate_pulse_duration`. -/
def ClockGenerator.calculate_pulse_duration (step_duration : ℚ) : ℚ :=
  step_duration / (PULSES_PER_STEP : ℚ)

/-- Source `ClockGenerator.suppress_next_drift_reset` method: when an anchor exists,
reset it to the current time, zero the pulse count and latch the
`_suppress_next_drift_reset` flag (modelled as `suppress_flag`). -/
def ClockGenerator.suppress_next_drift_reset (c : ClockGenerator) (now : ℚ) :
    ClockGenerator :=
  match c.clock_anchor_time with
  | none => c
  | some _ =>
    { c with clock_anchor_time := some now, pulse_count := 0, suppress_flag := true }

/-- Outcome of one pass through the leading (anchor / drift) region of an
iteration of `ClockGenerator.run_clock_loop`. -/
inductive ClockPhaseOutcome where
  | sleepIdle (c : ClockGenerator)
  | resetSleep (c : ClockGenerator) (sleep : ℚ)
  | proceed (c : ClockGenerator) (drift_ms : ℚ)
deriving DecidableEq

/-- The clock generator carried by an outcome. -/
def ClockPhaseOutcome.clock : ClockPhaseOutcome → ClockGenerator
  | ClockPhaseOutcome.sleepIdle c => c
  | ClockPhaseOutcome.resetSleep c _ => c
  | ClockPhaseOutcome.proceed c _ => c

/-- Whether the outcome is the drift-reset `continue` branch. -/
def ClockPhaseOutcome.isResetSleep : ClockPhaseOutcome → Bool
  | ClockPhaseOutcome.resetSleep _ _ => true
  | _ => false

/-- The anchor-initialisation and drift region of one iteration of
`ClockGenerator.run_clock_loop` (the `while` body up to and including the
drift-reset branch; a `resetSleep` outcome is the branch that ends in
`continue` after sleeping one pulse).  Both reset branches leave
`_pulse_count = 1` and the anchor at the current time; the reported branch
additionally increments `reset_count` (the clock loop publishes no telemetry,
it only logs). -/
def ClockGenerator.run_clock_loop_drift_phase (c0 : ClockGenerator)
    (playing : Bool) (step_duration now : ℚ) : ClockPhaseOutcome :=
  if playing = false then
    ClockPhaseOutcome.sleepIdle { c0 with clock_anchor_time := none, pulse_count := 0 }
  else
    let anchor : ℚ := match c0.clock_anchor_time with
      | none => now
      | some a => a
    let count : ℕ := match c0.clock_anchor_time with
      | none => 0
      | some _ => c0.pulse_count
    let c := { c0 with clock_anchor_time := some anchor, pulse_count := count }
    let pulse_duration := ClockGenerator.calculate_pulse_duration step_duration
    let expected_time := anchor + (count : ℚ) * pulse_duration
    let drift_ms := (now - expected_time) * 1000
    let c :=
      if |drift_ms| > c.drift_stats.max_drift_ms then
        { c with drift_stats := { c.drift_stats with max_drift_ms := |drift_ms| } }
      else c
    if |drift_ms| > CLOCK_DRIFT_RESET_THRESHOLD_MS then
      if c.suppress_flag then
        ClockPhaseOutcome.resetSleep
          { c with clock_anchor_time := some now, pulse_count := 1,
                   suppress_flag := false }
          pulse_duration
      else
        ClockPhaseOutcome.resetSleep
          { c with
              drift_stats :=
                { c.drift_stats with reset_count := c.drift_stats.reset_count + 1 },
              clock_anchor_time := some now,
              pulse_count := 1 }
          pulse_duration
    else
      ClockPhaseOutcome.proceed c drift_ms

/-! ## LoopEngine (`oiduna_loop/engine/loop_engine.py`) -/

/-- Source `oiduna_loop/result.py` `CommandResult`. -/
structure CommandResult where
  success : Bool
  message : Option String := none
  data : Option (Dict PVal) := none
deriving DecidableEq

/-- Source `CommandResult.ok()` (no message, no data). -/
def CommandResult.okNone : CommandResult :=
  { success := true }

/-- Source `CommandResult.ok(message)`. -/
def CommandResult.okMsg (m : String) : CommandResult :=
  { success := true, message := some m }

/-- Source `CommandResult.error(message)`. -/
def CommandResult.errMsg (m : String) : CommandResult :=
  { success := false, message := some m }

/-- Source `LoopEngine.DRIFT_RESET_THRESHOLD_MS` (50 ms). -/
def DRIFT_RESET_THRESHOLD_MS : ℚ := 50

/-- Source `LoopEngine.DRIFT_WARNING_THRESHOLD_MS` (20 ms). -/
def DRIFT_WARNING_THRESHOLD_MS : ℚ := 20

/-- The engine's `_drift_stats` dictionary. -/
structure DriftStats where
  reset_count : ℕ := 0
  max_drift_ms : ℚ := 0
  total_skipped_steps : ℕ := 0
  last_reset_drift_ms : ℚ := 0
deriving DecidableEq

/-- A telemetry event pushed to the state sink (`StateSink.send_error`); the
claims only inspect error-class events, identified by their code. -/
inductive Telemetry where
  | errorEvent (code : String)
deriving DecidableEq

/-- Source `LoopEngine` state.  The injected collaborators (OSC/MIDI senders, command
source, state publisher, destination router) are external; their side effects
are recorded as counters/logs: each `connect()` call bumps the matching
counter, `register_handler` appends the handler name, and `_load_destinations`
bumps `load_destinations_calls`.  Underscore-private attribute names are
written without the underscore. -/
structure LoopEngine where
  state : RuntimeState := {}
  midi_enabled : Bool := false
  running : Bool := false
  step_anchor_time : Option ℚ := none
  step_count : ℕ := 0
  suppress_flag : Bool := false
  drift_stats : DriftStats := {}
  clock_generator : ClockGenerator := {}
  message_scheduler : MessageScheduler := MessageScheduler.init
  destinations_loaded : Bool := false
  osc_connect_count : ℕ := 0
  midi_connect_count : ℕ := 0
  commands_connect_count : ℕ := 0
  publisher_connect_count : ℕ := 0
  registered_handlers : List String := []
  load_destinations_calls : ℕ := 0

/-- The thirteen handler names registered by `LoopEngine._register_handlers`,
in registration order. -/
def LoopEngine.handlerNames : List String :=
  ["compile", "session", "play", "stop", "pause", "mute", "solo", "bpm",
   "midi_port", "midi_panic", "panic", "scene", "scenes"]

/-- Outcome of the `destinations.yaml` read performed by
`LoopEngine._load_destinations` (external input): the file may be missing,
load and validate, or fail to load. -/
inductive DestLoadOutcome where
  | fileMissing
  | loaded
  | loadFailed
deriving DecidableEq

/-- Source `LoopEngine._load_destinations`: on a missing file or a load error it
logs and returns with `_destinations_loaded` untouched; on success it
registers the configured senders and sets `_destinations_loaded = True`. -/
def LoopEngine.load_destinations (e : LoopEngine) (outcome : DestLoadOutcome) :
    LoopEngine :=
  let e := { e with load_destinations_calls := e.load_destinations_calls + 1 }
  match outcome with
  | DestLoadOutcome.fileMissing => e
  | DestLoadOutcome.loadFailed => e
  | DestLoadOutcome.loaded => { e with destinations_loaded := true }

/-- Source `LoopEngine.start`: connect the OSC sender, connect MIDI (enabling MIDI
only if that connect succeeds — `midi_ok` is the external result), connect
the command source and the state publisher, register all command handlers,
and load the destination configuration.  The method has no started-guard:
every call performs all of these steps again. -/
def LoopEngine.start (e : LoopEngine) (midi_ok : Bool) (dest : DestLoadOutcome) :
    LoopEngine :=
  let e := { e with osc_connect_count := e.osc_connect_count + 1 }
  let e := { e with
      midi_connect_count := e.midi_connect_count + 1,
      midi_enabled := if midi_ok then true else e.midi_enabled }
  let e := { e with
      commands_connect_count := e.commands_connect_count + 1,
      publisher_connect_count := e.publisher_connect_count + 1 }
  let e := { e with
      registered_handlers := e.registered_handlers ++ LoopEngine.handlerNames }
  LoopEngine.load_destinations e dest

/-- Source `LoopEngine._handle_session`.  The payload argument is the result of
`ScheduledMessageBatch.from_dict(payload)` (`.error` when parsing raised).
After a successful parse the handler loads the batch into the message
scheduler and then executes `self.state.bpm = batch.bpm`; `RuntimeState.bpm`
is a property with a getter only (runtime_state.py defines no `@bpm.setter`),
so that assignment raises `AttributeError` out of the handler — the scheduler
mutation persists, the status update and the `CommandResult.ok()` return are
never reached. -/
def LoopEngine.handle_session (e : LoopEngine)
    (payload : Except String ScheduledMessageBatch) :
    LoopEngine × Except PyErr CommandResult :=
  if e.destinations_loaded = false then
    (e, Except.ok (CommandResult.errMsg "Destination configuration not loaded"))
  else
    match payload with
    | Except.error msg =>
      (e, Except.ok (CommandResult.errMsg ("Invalid session payload: " ++ msg)))
    | Except.ok batch =>
      let e1 :=
        { e with message_scheduler := e.message_scheduler.load_messages batch }
      (e1, Except.error PyErr.attributeError)

/-- Source `LoopEngine._handle_bpm`.  `bpm_valid` is the Pydantic validation result
(`BpmCommand` requires `bpm > 0`); an invalid payload is answered with an
error result.  Otherwise the handler reads `old_bpm = self.state.bpm`
(a property read that can itself raise), calls `set_bpm`, and — when playing
with an anchor set — resets the step anchor to the current time, zeroes the
step count, latches the suppress flag and propagates the suppression to the
clock generator. -/
def LoopEngine.handle_bpm (e : LoopEngine) (bpm now : ℚ) :
    LoopEngine × Except PyErr CommandResult :=
  if ¬ (0 < bpm) then
    (e, Except.ok (CommandResult.errMsg "Invalid bpm command"))
  else
    match RuntimeState.bpm_property e.state with
    | (st1, Except.error err) => ({ e with state := st1 }, Except.error err)
    | (st1, Except.ok _old_bpm) =>
      match RuntimeState.set_bpm st1 bpm with
      | (st2, Except.error err) => ({ e with state := st2 }, Except.error err)
      | (st2, Except.ok _) =>
        let e := { e with state := st2 }
        if e.state.playing && e.step_anchor_time.isSome then
          ({ e with
              step_anchor_time := some now,
              step_count := 0,
              suppress_flag := true,
              clock_generator := e.clock_generator.suppress_next_drift_reset now },
           Except.ok CommandResult.okNone)
        else
          (e, Except.ok CommandResult.okNone)

/-- Outcome of one pass through the leading (anchor / drift) region of an
iteration of `LoopEngine._step_loop`, together with the telemetry events the
region published. -/
inductive StepPhaseOutcome where
  | sleepIdle (e : LoopEngine)
  | resetSleep (e : LoopEngine) (events : List Telemetry) (sleep : ℚ)
  | proceed (e : LoopEngine) (drift_ms : ℚ)

/-- The engine carried by an outcome. -/
def StepPhaseOutcome.engine : StepPhaseOutcome → LoopEngine
  | StepPhaseOutcome.sleepIdle e => e
  | StepPhaseOutcome.resetSleep e _ _ => e
  | StepPhaseOutcome.proceed e _ => e

/-- The telemetry published by an outcome. -/
def StepPhaseOutcome.events : StepPhaseOutcome → List Telemetry
  | StepPhaseOutcome.sleepIdle _ => []
  | StepPhaseOutcome.resetSleep _ ev _ => ev
  | StepPhaseOutcome.proceed _ _ => []

/-- Whether the outcome is the drift-reset `continue` branch. -/
def StepPhaseOutcome.isResetSleep : StepPhaseOutcome → Bool
  | StepPhaseOutcome.resetSleep _ _ _ => true
  | _ => false

/-- Source `LoopEngine._handle_drift_reset`: log, update the drift statistics
(`reset_count + 1`, accumulate `skipped_steps = int(|drift_ms| /
(step_duration · 1000))`, record the drift), reset the anchor to the current
time, zero the step count, and publish a `CLOCK_DRIFT_RESET` error event. -/
def LoopEngine.handle_drift_reset (e : LoopEngine) (drift_ms now : ℚ) :
    LoopEngine × List Telemetry :=
  let step_duration := e.state.step_duration
  let skipped_steps : ℕ := (⌊|drift_ms| / (step_duration * 1000)⌋).toNat
  let stats :=
    { e.drift_stats with
        reset_count := e.drift_stats.reset_count + 1,
        total_skipped_steps := e.drift_stats.total_skipped_steps + skipped_steps,
        last_reset_drift_ms := drift_ms }
  ({ e with drift_stats := stats, step_anchor_time := some now, step_count := 0 },
   [Telemetry.errorEvent "CLOCK_DRIFT_RESET"])

/-- The anchor-initialisation and drift region of one iteration of
`LoopEngine._step_loop` (the `while` body up to and including the drift-reset
branch; a `resetSleep` outcome is the branch that sets `_step_count = 1` and
ends in `continue` after sleeping one step).  The suppressed branch publishes
nothing, leaves `reset_count` untouched and clears the suppress flag; the
reported branch delegates to `_handle_drift_reset` and then also sets
`_step_count = 1`. -/
def LoopEngine.step_loop_drift_phase (e0 : LoopEngine) (now : ℚ) : StepPhaseOutcome :=
  if e0.state.playing = false then
    StepPhaseOutcome.sleepIdle { e0 with step_anchor_time := none, step_count := 0 }
  else
    let anchor : ℚ := match e0.step_anchor_time with
      | none => now
      | some a => a
    let count : ℕ := match e0.step_anchor_time with
      | none => 0
      | some _ => e0.step_count
    let e := { e0 with step_anchor_time := some anchor, step_count := count }
    let step_duration := e.state.step_duration
    let expected_time := anchor + (count : ℚ) * step_duration
    let drift_ms := (now - expected_time) * 1000
    let e :=
      if |drift_ms| > e.drift_stats.max_drift_ms then
        { e with drift_stats := { e.drift_stats with max_drift_ms := |drift_ms| } }
      else e
    if |drift_ms| > DRIFT_RESET_THRESHOLD_MS then
      if e.suppress_flag then
        StepPhaseOutcome.resetSleep
          { e with step_anchor_time := some now, step_count := 1,
                   suppress_flag := false }
          [] step_duration
      else
        let r := LoopEngine.handle_drift_reset e drift_ms now
        StepPhaseOutcome.resetSleep { r.1 with step_count := 1 } r.2 step_duration
    else
      StepPhaseOutcome.proceed e drift_ms

/-- The expected time the step loop computes for its next iteration:
`anchor + step_count · step_duration`. -/
def LoopEngine.next_expected_time (e : LoopEngine) : ℚ :=
  (e.step_anchor_time.getD 0) + (e.step_count : ℚ) * e.state.step_duration

/-- The expected time the clock loop computes for its next iteration:
`anchor + pulse_count · pulse_duration`. -/
def ClockGenerator.next_expected_time (c : ClockGenerator) (step_duration : ℚ) : ℚ :=
  (c.clock_anchor_time.getD 0)
    + (c.pulse_count : ℚ) * ClockGenerator.calculate_pulse_duration step_duration

/-- Source `ts.foldl advance_step st`: iterated `RuntimeState.advance_step` over the
listed `time.time()` reads. -/
def RuntimeState.advance_many (st : RuntimeState) (ts : List ℚ) : RuntimeState :=
  ts.foldl RuntimeState.advance_step st

/-! ## Helper lemmas -/

theorem advance_step_position (st : RuntimeState) (t : ℚ) :
    (st.advance_step t).position = st.position.advance LOOP_STEPS t := by
  unfold RuntimeState.advance_step
  cases st.pending with
  | none => rfl
  | some p =>
    dsimp only
    split <;> rfl

theorem advance_step_pending_seq (st : RuntimeState) (t : ℚ) (p : PendingApply)
    (hp : st.pending = some p) (hseq : p.timing = ApplyTiming.seq) :
    (st.advance_step t).pending =
      some (if 0 < (st.position.advance LOOP_STEPS t).step then
              { p with passed_non_zero := true } else p) := by
  unfold RuntimeState.advance_step
  rw [hp]
  dsimp only
  by_cases h : 0 < (st.position.advance LOOP_STEPS t).step
  · rw [if_pos ⟨hseq, h⟩, if_pos h]
  · rw [if_neg (fun hc => h hc.2), if_neg h]

theorem advance_many_cons (st : RuntimeState) (t : ℚ) (rest : List ℚ) :
    st.advance_many (t :: rest) = (st.advance_step t).advance_many rest := rfl

/-- On a "seq"-pending state, iterated advancing keeps a "seq" pending, and
its `passed_non_zero` flag can only be true if it was already true or some
advance in the trace landed on a non-zero step. -/
theorem advance_many_seq_latch_origin (ts : List ℚ) (st : RuntimeState)
    (p : PendingApply) (hp : st.pending = some p)
    (hseq : p.timing = ApplyTiming.seq) :
    ∃ p', (st.advance_many ts).pending = some p' ∧ p'.timing = ApplyTiming.seq ∧
      (p'.passed_non_zero = true →
        p.passed_non_zero = true ∨
        ∃ i, i < ts.length ∧
          (st.advance_many (ts.take (i + 1))).position.step ≠ 0) := by
  induction ts generalizing st p with
  | nil => exact ⟨p, hp, hseq, fun h => Or.inl h⟩
  | cons t rest ih =>
    have hstep := advance_step_pending_seq st t p hp hseq
    set p1 : PendingApply :=
      (if 0 < (st.position.advance LOOP_STEPS t).step then
        { p with passed_non_zero := true } else p) with hp1def
    have hseq1 : p1.timing = ApplyTiming.seq := by
      rw [hp1def]; split <;> simpa using hseq
    obtain ⟨p', hp', hseq', horigin⟩ := ih (st.advance_step t) p1 hstep hseq1
    refine ⟨p', by simpa [advance_many_cons] using hp', hseq', ?_⟩
    intro hnz
    rcases horigin hnz with h1 | ⟨i, hi, hstepne⟩
    · by_cases hpos : 0 < (st.position.advance LOOP_STEPS t).step
      · right
        refine ⟨0, by simp, ?_⟩
        have : (st.advance_many [t]).position.step =
            (st.position.advance LOOP_STEPS t).step := by
          simp [RuntimeState.advance_many, List.foldl, advance_step_position]
        simp only [List.take, this]
        omega
      · left
        rw [hp1def, if_neg hpos] at h1
        exact h1
    · right
      refine ⟨i + 1, by simpa using Nat.succ_lt_succ hi, ?_⟩
      simpa [List.take_succ_cons, advance_many_cons] using hstepne

/-- Source `get_effective` only ever writes the cache and the two derived timing
fields. -/
theorem get_effective_frame (st : RuntimeState) :
    (st.get_effective).1.position = st.position ∧
    (st.get_effective).1.playback_state = st.playback_state ∧
    (st.get_effective).1.pending = st.pending ∧
    (st.get_effective).1.scene_state = st.scene_state ∧
    (st.get_effective).1.active_scene_name = st.active_scene_name ∧
    (st.get_effective).1.live_overrides = st.live_overrides := by
  unfold RuntimeState.get_effective
  cases st.effective with
  | some eff => exact ⟨rfl, rfl, rfl, rfl, rfl, rfl⟩
  | none =>
    cases RuntimeState.compute_effective st with
    | error e => exact ⟨rfl, rfl, rfl, rfl, rfl, rfl⟩
    | ok eff => exact ⟨rfl, rfl, rfl, rfl, rfl, rfl⟩

/-- Source `_update_timing` only ever writes the cache and the two derived timing
fields. -/
theorem update_timing_frame (st : RuntimeState) :
    (st.update_timing).1.position = st.position ∧
    (st.update_timing).1.playback_state = st.playback_state ∧
    (st.update_timing).1.pending = st.pending ∧
    (st.update_timing).1.scene_state = st.scene_state ∧
    (st.update_timing).1.active_scene_name = st.active_scene_name ∧
    (st.update_timing).1.live_overrides = st.live_overrides := by
  obtain ⟨h1, h2, h3, h4, h5, h6⟩ := get_effective_frame st
  unfold RuntimeState.update_timing
  cases hge : st.get_effective with
  | mk st' r =>
    rw [hge] at h1 h2 h3 h4 h5 h6
    cases r with
    | error e => exact ⟨h1, h2, h3, h4, h5, h6⟩
    | ok eff => exact ⟨h1, h2, h3, h4, h5, h6⟩

/-- What `set_bpm` does to the non-environment state: `position`,
`playback_state`, `pending`, `scene_state` and `active_scene_name` are
untouched, and whenever a live-override layer existed, the layer after the
call carries exactly the old layer's `tracks`, `tracks_midi`, `mixer_lines`,
`sequences`, `scenes` and `apply`. -/
theorem set_bpm_frame_aux (st : RuntimeState) (b : ℚ) :
    (st.set_bpm b).1.position = st.position ∧
    (st.set_bpm b).1.playback_state = st.playback_state ∧
    (st.set_bpm b).1.pending = st.pending ∧
    (st.set_bpm b).1.scene_state = st.scene_state ∧
    (st.set_bpm b).1.active_scene_name = st.active_scene_name ∧
    (∀ lo, st.live_overrides = some lo →
      ∃ lo', (st.set_bpm b).1.live_overrides = some lo' ∧
        lo'.tracks = lo.tracks ∧ lo'.tracks_midi = lo.tracks_midi ∧
        lo'.mixer_lines = lo.mixer_lines ∧ lo'.sequences = lo.sequences ∧
        lo'.scenes = lo.scenes ∧ lo'.apply = lo.apply) := by
  obtain ⟨g1, g2, g3, g4, g5, g6⟩ := get_effective_frame st
  unfold RuntimeState.set_bpm
  cases hge : st.get_effective with
  | mk st1 r =>
    rw [hge] at g1 g2 g3 g4 g5 g6
    replace g1 : st1.position = st.position := g1
    replace g2 : st1.playback_state = st.playback_state := g2
    replace g3 : st1.pending = st.pending := g3
    replace g4 : st1.scene_state = st.scene_state := g4
    replace g5 : st1.active_scene_name = st.active_scene_name := g5
    replace g6 : st1.live_overrides = st.live_overrides := g6
    cases r with
    | error e =>
      exact ⟨g1, g2, g3, g4, g5,
        fun lo hlo => ⟨lo, by dsimp only; rw [g6, hlo], rfl, rfl, rfl, rfl, rfl, rfl⟩⟩
    | ok eff =>
      dsimp only
      cases hlo1 : st1.live_overrides with
      | none =>
        obtain ⟨u1, u2, u3, u4, u5, u6⟩ := update_timing_frame
          { st1 with
              live_overrides := some { environment :=
                { bpm := max 1 (min 999 b), scale := eff.environment.scale,
                  default_gate := eff.environment.default_gate,
                  swing := eff.environment.swing, loop_steps := LOOP_STEPS,
                  chords := eff.environment.chords } },
              effective := none }
        refine ⟨by rw [u1]; exact g1, by rw [u2]; exact g2, by rw [u3]; exact g3,
          by rw [u4]; exact g4, by rw [u5]; exact g5, ?_⟩
        intro lo hlo
        rw [g6, hlo] at hlo1
        exact absurd hlo1 (by simp)
      | some lo0 =>
        obtain ⟨u1, u2, u3, u4, u5, u6⟩ := update_timing_frame
          { st1 with
              live_overrides := some
                { environment :=
                    { bpm := max 1 (min 999 b), scale := eff.environment.scale,
                      default_gate := eff.environment.default_gate,
                      swing := eff.environment.swing, loop_steps := LOOP_STEPS,
                      chords := eff.environment.chords },
                  tracks := lo0.tracks, tracks_midi := lo0.tracks_midi,
                  mixer_lines := lo0.mixer_lines, sequences := lo0.sequences,
                  scenes := lo0.scenes, apply := lo0.apply },
              effective := none }
        refine ⟨by rw [u1]; exact g1, by rw [u2]; exact g2, by rw [u3]; exact g3,
          by rw [u4]; exact g4, by rw [u5]; exact g5, ?_⟩
        intro lo hlo
        rw [g6, hlo] at hlo1
        obtain rfl : lo0 = lo := by injection hlo1 with h; exact h.symm
        refine ⟨{ environment :=
                    { bpm := max 1 (min 999 b), scale := eff.environment.scale,
                      default_gate := eff.environment.default_gate,
                      swing := eff.environment.swing, loop_steps := LOOP_STEPS,
                      chords := eff.environment.chords },
                  tracks := lo0.tracks, tracks_midi := lo0.tracks_midi,
                  mixer_lines := lo0.mixer_lines, sequences := lo0.sequences,
                  scenes := lo0.scenes, apply := lo0.apply },
          ?_, rfl, rfl, rfl, rfl, rfl, rfl⟩
        rw [u6]

/-- The reverse-iteration loop keeps exactly the not-yet-due entries (in
order) and sends one note-off per due entry (in decreasing index order). -/
theorem process_due_spec (now : ℚ) (l : List PendingNoteOff) :
    (NoteScheduler.process_due now l).1
      = l.filter (fun p => ! decide (p.off_time ≤ now)) ∧
    (NoteScheduler.process_due now l).2
      = ((l.filter (fun p => decide (p.off_time ≤ now))).reverse).map
          (fun p => (p.channel, p.note)) := by
  induction l with
  | nil => exact ⟨rfl, rfl⟩
  | cons p rest ih =>
    obtain ⟨ih1, ih2⟩ := ih
    unfold NoteScheduler.process_due
    by_cases h : p.off_time ≤ now
    · rw [if_pos h]
      refine ⟨?_, ?_⟩
      · simpa [List.filter_cons, h] using ih1
      · simp [List.filter_cons, h, ih2]
    · rw [if_neg h]
      refine ⟨?_, ?_⟩
      · simpa [List.filter_cons, h] using ih1
      · simpa [List.filter_cons, h] using ih2

/-- Indexing a loaded batch: looking up a step in the rebuilt
`_messages_by_step` yields the batch messages whose `step` equals it, in
batch order, appended after whatever the accumulator already held. -/
theorem load_messages_foldl (l : List ScheduledMessage)
    (m : ℕ → List ScheduledMessage) (s : ℕ) :
    (l.foldl (fun m msg => fun s' => if s' = msg.step then m s' ++ [msg] else m s') m) s
      = m s ++ l.filter (fun msg => msg.step == s) := by
  induction l generalizing m with
  | nil => simp
  | cons msg rest ih =>
    rw [List.foldl_cons, ih, List.filter_cons]
    by_cases h : msg.step = s
    · simp [h]
    · have h' : ¬ (s = msg.step) := fun hc => h hc.symm
      simp [h, h']

/-! ## Claim theorems -/

/-- C3: For every Position with step in 0..=255, after one `advance_step`
(with `loop_steps = 256`) the new position satisfies
`step' = (step + 1) mod 256`, `beat' = (step' / 4) mod 4` and
`bar' = step' / 16` (integer division). -/
theorem advance_step_position_invariant (st : RuntimeState) (t : ℚ)
    (h : st.position.step ≤ 255) :
    (st.advance_step t).position.step = (st.position.step + 1) % 256 ∧
    (st.advance_step t).position.beat = (((st.position.step + 1) % 256) / 4) % 4 ∧
    (st.advance_step t).position.bar = ((st.position.step + 1) % 256) / 16 := by
  rw [advance_step_position st t]
  exact ⟨rfl, rfl, rfl⟩

/-- Witness for C3 at a concrete wrap-around input. -/
theorem advance_step_position_invariant_witness :
    (RuntimeState.position { position := { step := 255 } }).step ≤ 255 ∧
    ((RuntimeState.advance_step { position := { step := 255 } } 0).position.step = 0 ∧
     (RuntimeState.advance_step { position := { step := 255 } } 0).position.beat = 0 ∧
     (RuntimeState.advance_step { position := { step := 255 } } 0).position.bar = 0) := by
  refine ⟨by decide, ?_⟩
  have h := advance_step_position_invariant { position := { step := 255 } } 0 (by decide)
  simpa using h

/-- C4: For every batch `b` and every step `s` in 0..=255, after
`load_messages(b)` the scheduler's `get_messages_at_step(s)` returns exactly
the messages of `b` whose `step` equals `s`, in batch order (empty when there
are none); the result is independent of the scheduler's previous contents, so
no message from a previously loaded batch remains reachable. -/
theorem load_messages_get_messages_spec (sch : MessageScheduler)
    (b : ScheduledMessageBatch) (s : ℕ) (h : s ≤ 255) :
    (sch.load_messages b).get_messages_at_step s
      = b.messages.filter (fun m => m.step == s) ∧
    ∀ m ∈ (sch.load_messages b).get_messages_at_step s, m ∈ b.messages := by
  have key : (sch.load_messages b).get_messages_at_step s
      = b.messages.filter (fun m => m.step == s) := by
    have h1 := load_messages_foldl b.messages (fun _ => []) s
    simpa [MessageScheduler.get_messages_at_step, MessageScheduler.load_messages]
      using h1
  refine ⟨key, ?_⟩
  intro m hm
  rw [key] at hm
  exact List.mem_of_mem_filter hm

/-- The concrete batch used by witnesses: two messages on step 3 and one on
step 5. -/
def batchW : ScheduledMessageBatch :=
  { messages :=
      [{ destination_id := "superdirt", cycle := 0, step := 3, params := [("s", PVal.str "bd")] },
       { destination_id := "volca", cycle := 0, step := 5, params := [("note", PVal.int 60)] },
       { destination_id := "superdirt", cycle := 1/2, step := 3, params := [("s", PVal.str "sn")] }],
    bpm := 130, pattern_length := 4 }

/-- A scheduler already holding an older batch (to witness the replacement
semantics of C4). -/
def schedulerW : MessageScheduler :=
  MessageScheduler.init.load_messages
    { messages :=
        [{ destination_id := "old", cycle := 0, step := 3, params := [] }],
      bpm := 120, pattern_length := 4 }

/-- Witness for C4 at a concrete step with a non-empty prior scheduler. -/
theorem load_messages_get_messages_spec_witness :
    (3 : ℕ) ≤ 255 ∧
    ((schedulerW.load_messages batchW).get_messages_at_step 3
        = batchW.messages.filter (fun m => m.step == 3) ∧
      ∀ m ∈ (schedulerW.load_messages batchW).get_messages_at_step 3,
        m ∈ batchW.messages) := by
  exact ⟨by decide, load_messages_get_messages_spec schedulerW batchW 3 (by decide)⟩

/-- C9 (counterexample): with the MIDI output disconnected,
`process_pending_note_offs` neither removes nor sends the due entry
(`off_time = 0 ≤ now = 1`), contradicting the claim that one call always
sends a note-off for every due entry and removes exactly those entries. -/
theorem process_due_disconnected_counterexample :
    NoteScheduler.process_pending_note_offs false 1
        [{ off_time := 0, channel := 0, note := 60 }]
      = ([{ off_time := 0, channel := 0, note := 60 }], []) ∧
    ¬ ((NoteScheduler.process_pending_note_offs false 1
        [{ off_time := 0, channel := 0, note := 60 }]).1 = []) := by
  exact ⟨rfl, by decide⟩

/-- C9 (amended): provided the MIDI output is connected, one call to
`process_pending_note_offs` sends a note-off for every pending entry with
`off_time ≤ now` and removes exactly those entries, leaving all entries with
`off_time > now` untouched (in order); when the output is disconnected the
call is a no-op (nothing sent, nothing removed). -/
theorem process_pending_note_offs_spec (now : ℚ) (l : List PendingNoteOff) :
    (NoteScheduler.process_pending_note_offs true now l).1
      = l.filter (fun p => ! decide (p.off_time ≤ now)) ∧
    (NoteScheduler.process_pending_note_offs true now l).2
      = ((l.filter (fun p => decide (p.off_time ≤ now))).reverse).map
          (fun p => (p.channel, p.note)) ∧
    NoteScheduler.process_pending_note_offs false now l = (l, []) := by
  obtain ⟨h1, h2⟩ := process_due_spec now l
  exact ⟨by simpa [NoteScheduler.process_pending_note_offs] using h1,
         by simpa [NoteScheduler.process_pending_note_offs] using h2,
         rfl⟩

/-- C6: A pending apply with `"seq"` timing starts with
`passed_non_zero = false` (first conjunct); `advance_step` latches the flag
exactly when the new step is non-zero (second conjunct); and
`should_apply_pending` can return true only at step 0 and only after some
`advance_step` since the pending was set landed on a non-zero step (third
conjunct). -/
theorem seq_pending_gating :
    (∀ (st : RuntimeState) (sess : CompiledSession) (tids : List String)
        (sn : Option String) (ra : ℚ) (p : PendingApply),
      (st.set_pending sess ApplyTiming.seq tids sn ra).pending = some p →
      p.passed_non_zero = false)
    ∧ (∀ (st : RuntimeState) (t : ℚ) (p : PendingApply),
      st.pending = some p → p.timing = ApplyTiming.seq →
      ∃ p', (st.advance_step t).pending = some p' ∧
        p'.passed_non_zero
          = (p.passed_non_zero
              || !((st.position.advance LOOP_STEPS t).step == 0)))
    ∧ (∀ (st : RuntimeState) (sess : CompiledSession) (tids : List String)
        (sn : Option String) (ra : ℚ) (ts : List ℚ),
      RuntimeState.should_apply_pending
          ((st.set_pending sess ApplyTiming.seq tids sn ra).advance_many ts) = true →
      ((st.set_pending sess ApplyTiming.seq tids sn ra).advance_many ts).position.step = 0 ∧
      ∃ i, i < ts.length ∧
        ((st.set_pending sess ApplyTiming.seq tids sn ra).advance_many
          (ts.take (i + 1))).position.step ≠ 0) := by
  refine ⟨?_, ?_, ?_⟩
  · intro st sess tids sn ra p hp
    simp only [RuntimeState.set_pending] at hp
    injection hp with h
    rw [← h]
  · intro st t p hp hseq
    refine ⟨_, advance_step_pending_seq st t p hp hseq, ?_⟩
    by_cases h : 0 < (st.position.advance LOOP_STEPS t).step
    · have hne : ¬ ((st.position.advance LOOP_STEPS t).step == 0) = true := by
        simpa using Nat.pos_iff_ne_zero.mp h
      simp [if_pos h, hne]
    · have h0 : (st.position.advance LOOP_STEPS t).step = 0 := Nat.eq_zero_of_not_pos h
      simp [if_neg h, h0]
  · intro st sess tids sn ra ts htrue
    have hp0 : (st.set_pending sess ApplyTiming.seq tids sn ra).pending
        = some { timing := ApplyTiming.seq, session := sess, track_ids := tids,
                 scene_name := sn, received_at := ra, passed_non_zero := false } := rfl
    obtain ⟨p', hp', hseq', horigin⟩ :=
      advance_many_seq_latch_origin ts _ _ hp0 rfl
    rw [RuntimeState.should_apply_pending, hp'] at htrue
    dsimp only at htrue
    rw [hseq'] at htrue
    simp only [Bool.and_eq_true, beq_iff_eq] at htrue
    obtain ⟨hstep0, hnz⟩ := htrue
    refine ⟨hstep0, ?_⟩
    rcases horigin hnz with h1 | h2
    · exact absurd h1 (by simp)
    · exact h2

/-- Witness for C6: set a `"seq"` pending at step 254, advance twice (landing
on 255, then wrapping to 0); the pending fires and the first advance is the
required non-zero landing. -/
theorem seq_pending_gating_witness :
    RuntimeState.should_apply_pending
        ((RuntimeState.set_pending { position := { step := 254 } } {}
            ApplyTiming.seq [] none 0).advance_many [0, 0]) = true ∧
    (((RuntimeState.set_pending { position := { step := 254 } } {}
        ApplyTiming.seq [] none 0).advance_many [0, 0]).position.step = 0 ∧
      ∃ i, i < ([(0 : ℚ), 0]).length ∧
        ((RuntimeState.set_pending { position := { step := 254 } } {}
            ApplyTiming.seq [] none 0).advance_many
          (([(0 : ℚ), 0]).take (i + 1))).position.step ≠ 0) := by
  refine ⟨by decide, ?_⟩
  exact seq_pending_gating.2.2 { position := { step := 254 } } {} [] none 0 [0, 0]
    (by decide)

/-- C7: in every step-loop iteration whose drift exceeds the 50 ms reset
threshold — suppressed or reported — the branch taken is the reset branch,
the anchor becomes the current time and the iteration counter becomes 1 (not
0), so the next expected time is the reset time plus one `step_duration`;
and the clock loop behaves the same way with its pulse counter and pulse
duration after its own (30 ms) drift reset. -/
theorem drift_reset_resynchronizes :
    (∀ (e : LoopEngine) (a now : ℚ),
      e.state.playing = true →
      e.step_anchor_time = some a →
      DRIFT_RESET_THRESHOLD_MS
          < |(now - (a + (e.step_count : ℚ) * e.state.step_duration)) * 1000| →
      (e.step_loop_drift_phase now).isResetSleep = true ∧
      (e.step_loop_drift_phase now).engine.step_anchor_time = some now ∧
      (e.step_loop_drift_phase now).engine.step_count = 1 ∧
      (e.step_loop_drift_phase now).engine.next_expected_time
        = now + e.state.step_duration)
    ∧ (∀ (c : ClockGenerator) (a step_duration now : ℚ),
      c.clock_anchor_time = some a →
      CLOCK_DRIFT_RESET_THRESHOLD_MS
          < |(now - (a + (c.pulse_count : ℚ)
                * ClockGenerator.calculate_pulse_duration step_duration)) * 1000| →
      (ClockGenerator.run_clock_loop_drift_phase c true step_duration now).isResetSleep
          = true ∧
      (ClockGenerator.run_clock_loop_drift_phase c true step_duration now).clock.clock_anchor_time
          = some now ∧
      (ClockGenerator.run_clock_loop_drift_phase c true step_duration now).clock.pulse_count
          = 1 ∧
      (ClockGenerator.run_clock_loop_drift_phase c true step_duration now).clock.next_expected_time
            step_duration
        = now + ClockGenerator.calculate_pulse_duration step_duration) := by
  constructor
  · intro e a now hplay hanch hdrift
    unfold LoopEngine.step_loop_drift_phase
    rw [hplay, hanch]
    simp only [Bool.true_eq_false, if_false]
    rw [if_pos hdrift]
    split <;> split <;>
      simp [StepPhaseOutcome.isResetSleep, StepPhaseOutcome.engine,
            LoopEngine.next_expected_time, LoopEngine.handle_drift_reset]
  · intro c a step_duration now hanch hdrift
    unfold ClockGenerator.run_clock_loop_drift_phase
    rw [hanch]
    simp only [Bool.true_eq_false, if_false]
    rw [if_pos hdrift]
    split <;> split <;>
      simp [ClockPhaseOutcome.isResetSleep, ClockPhaseOutcome.clock,
            ClockGenerator.next_expected_time]

/-- Concrete engine for the C7 witness: playing, anchored at 0 with counter 0
and the default 120 BPM step duration (1/8 s). -/
def engineW7 : LoopEngine :=
  { state := { playback_state := PlaybackState.playing },
    step_anchor_time := some 0 }

/-- Concrete clock generator for the C7 witness. -/
def clockW7 : ClockGenerator :=
  { clock_anchor_time := some 0 }

/-- Witness for C7 at `now = 1` (drift 1000 ms, above both thresholds). -/
theorem drift_reset_resynchronizes_witness :
    ((engineW7.step_loop_drift_phase 1).isResetSleep = true ∧
     (engineW7.step_loop_drift_phase 1).engine.step_anchor_time = some 1 ∧
     (engineW7.step_loop_drift_phase 1).engine.step_count = 1 ∧
     (engineW7.step_loop_drift_phase 1).engine.next_expected_time
       = 1 + engineW7.state.step_duration) ∧
    ((ClockGenerator.run_clock_loop_drift_phase clockW7 true (1/8) 1).isResetSleep = true ∧
     (ClockGenerator.run_clock_loop_drift_phase clockW7 true (1/8) 1).clock.clock_anchor_time
       = some 1 ∧
     (ClockGenerator.run_clock_loop_drift_phase clockW7 true (1/8) 1).clock.pulse_count = 1 ∧
     (ClockGenerator.run_clock_loop_drift_phase clockW7 true (1/8) 1).clock.next_expected_time (1/8)
       = 1 + ClockGenerator.calculate_pulse_duration (1/8)) := by
  constructor
  · exact drift_reset_resynchronizes.1 engineW7 0 1 (by decide) rfl
      (by norm_num [engineW7, DRIFT_RESET_THRESHOLD_MS])
  · exact drift_reset_resynchronizes.2 clockW7 0 (1/8) 1 rfl
      (by norm_num [clockW7, CLOCK_DRIFT_RESET_THRESHOLD_MS,
        ClockGenerator.calculate_pulse_duration, PULSES_PER_STEP])

/-- Source `bpm_property` does not touch the playback state. -/
theorem bpm_property_playback (st : RuntimeState) :
    (st.bpm_property).1.playback_state = st.playback_state := by
  obtain ⟨_, h2, _, _, _, _⟩ := get_effective_frame st
  unfold RuntimeState.bpm_property
  cases hge : st.get_effective with
  | mk st' r =>
    rw [hge] at h2
    replace h2 : st'.playback_state = st.playback_state := h2
    cases r with
    | error e => exact h2
    | ok eff => exact h2

/-- C8: a BPM change while Playing (with an anchor set) that completes
normally latches the suppress flag and resets the step anchor (first
conjunct); the next step-loop iteration whose drift exceeds the reset
threshold then takes the silent branch: it publishes no telemetry event,
leaves `reset_count` unchanged, and clears the suppress flag (second
conjunct); and an iteration whose drift does not exceed the threshold leaves
the latched flag in place, so the suppression indeed applies to the first
threshold-exceeding iteration and to at most one reset (third conjunct). -/
theorem bpm_change_suppresses_one_reset :
    (∀ (e : LoopEngine) (bpm now : ℚ),
      0 < bpm →
      e.state.playing = true →
      e.step_anchor_time.isSome = true →
      (e.handle_bpm bpm now).2 = Except.ok CommandResult.okNone →
      ((e.handle_bpm bpm now).1.suppress_flag = true ∧
       (e.handle_bpm bpm now).1.step_anchor_time = some now ∧
       (e.handle_bpm bpm now).1.step_count = 0))
    ∧ (∀ (e : LoopEngine) (a now : ℚ),
      e.state.playing = true →
      e.step_anchor_time = some a →
      e.suppress_flag = true →
      DRIFT_RESET_THRESHOLD_MS
          < |(now - (a + (e.step_count : ℚ) * e.state.step_duration)) * 1000| →
      ((e.step_loop_drift_phase now).events = [] ∧
       (e.step_loop_drift_phase now).engine.drift_stats.reset_count
         = e.drift_stats.reset_count ∧
       (e.step_loop_drift_phase now).engine.suppress_flag = false))
    ∧ (∀ (e : LoopEngine) (a now : ℚ),
      e.state.playing = true →
      e.step_anchor_time = some a →
      ¬ (DRIFT_RESET_THRESHOLD_MS
          < |(now - (a + (e.step_count : ℚ) * e.state.step_duration)) * 1000|) →
      (e.step_loop_drift_phase now).engine.suppress_flag = e.suppress_flag) := by
  refine ⟨?_, ?_, ?_⟩
  · intro e bpm now hv hplay hanch hok
    have hnn : ¬¬(0 < bpm) := not_not_intro hv
    unfold LoopEngine.handle_bpm at hok ⊢
    rw [if_neg hnn] at hok ⊢
    cases hbp : RuntimeState.bpm_property e.state with
    | mk st1 r1 =>
      have h1 : st1.playback_state = e.state.playback_state := by
        have h := bpm_property_playback e.state
        rw [hbp] at h
        exact h
      cases r1 with
      | error err => simp [hbp] at hok
      | ok old =>
        dsimp only at hok ⊢
        cases hsb : RuntimeState.set_bpm st1 bpm with
        | mk st2 r2 =>
          have h2 : st2.playback_state = st1.playback_state := by
            have h := (set_bpm_frame_aux st1 bpm).2.1
            rw [hsb] at h
            exact h
          cases r2 with
          | error err => simp [hbp, hsb] at hok
          | ok u =>
            dsimp only at hok ⊢
            have hpl2 : RuntimeState.playing st2 = true := by
              unfold RuntimeState.playing at hplay ⊢
              rw [h2, h1]
              exact hplay
            split
            · exact ⟨rfl, rfl, rfl⟩
            · next hneg => exact absurd (by simp [hpl2, hanch]) hneg
  · intro e a now hplay hanch hsup hdrift
    unfold LoopEngine.step_loop_drift_phase
    rw [hplay, hanch]
    simp only [Bool.true_eq_false, if_false]
    rw [if_pos hdrift]
    split <;>
      simp [hsup, StepPhaseOutcome.events, StepPhaseOutcome.engine]
  · intro e a now hplay hanch hdrift
    unfold LoopEngine.step_loop_drift_phase
    rw [hplay, hanch]
    simp only [Bool.true_eq_false, if_false]
    rw [if_neg hdrift]
    split <;> simp [StepPhaseOutcome.engine]

/-- Concrete engine for the C8 witness: playing, suppress flag latched,
anchored at 0, `reset_count = 3`. -/
def engineW8 : LoopEngine :=
  { state := { playback_state := PlaybackState.playing },
    step_anchor_time := some 0,
    suppress_flag := true,
    drift_stats := { reset_count := 3 } }

/-- Witness for C8: at `now = 1` (drift 1000 ms > 50 ms) the suppressed
iteration emits nothing, keeps `reset_count` at 3 and clears the flag; and a
BPM change on a playing anchored engine latches the flag. -/
theorem bpm_change_suppresses_one_reset_witness :
    ((engineW8.step_loop_drift_phase 1).events = [] ∧
     (engineW8.step_loop_drift_phase 1).engine.drift_stats.reset_count
       = engineW8.drift_stats.reset_count ∧
     (engineW8.step_loop_drift_phase 1).engine.suppress_flag = false) ∧
    ((engineW7.handle_bpm 140 2).1.suppress_flag = true ∧
     (engineW7.handle_bpm 140 2).1.step_anchor_time = some 2 ∧
     (engineW7.handle_bpm 140 2).1.step_count = 0) := by
  constructor
  · exact bpm_change_suppresses_one_reset.2.1 engineW8 0 1 (by decide) rfl rfl
      (by norm_num [engineW8, DRIFT_RESET_THRESHOLD_MS])
  · exact bpm_change_suppresses_one_reset.1 engineW7 140 2 (by norm_num) (by decide)
      (by decide) rfl

/-- C10: `set_bpm` changes only the environment layer of `live_overrides`,
the derived timing values and the effective-state cache: `position`,
`playback_state`, `pending`, `scene_state` and `active_scene_name` are
unchanged, and the live-override layer's `tracks`, `tracks_midi`,
`mixer_lines`, `sequences`, `scenes` and `apply` are all carried over
unchanged whenever that layer existed.  (When `set_bpm` raises — the
effective-state merge can raise `AttributeError`, see `merge_track` — the
returned state carries the mutations done before the raise, and the same
frame conditions hold.) -/
theorem set_bpm_frame (st : RuntimeState) (b : ℚ) :
    (st.set_bpm b).1.position = st.position ∧
    (st.set_bpm b).1.playback_state = st.playback_state ∧
    (st.set_bpm b).1.pending = st.pending ∧
    (st.set_bpm b).1.scene_state = st.scene_state ∧
    (st.set_bpm b).1.active_scene_name = st.active_scene_name ∧
    (∀ lo, st.live_overrides = some lo →
      ∃ lo', (st.set_bpm b).1.live_overrides = some lo' ∧
        lo'.tracks = lo.tracks ∧ lo'.tracks_midi = lo.tracks_midi ∧
        lo'.mixer_lines = lo.mixer_lines ∧ lo'.sequences = lo.sequences ∧
        lo'.scenes = lo.scenes ∧ lo'.apply = lo.apply) :=
  set_bpm_frame_aux st b

/-- Concrete live-override layer for the C10 witness. -/
def loW10 : CompiledSession :=
  { sequences := [("kick", { track_id := "kick", events := [{ step := 0 }] })] }

/-- Concrete runtime state for the C10 witness. -/
def stateW10 : RuntimeState :=
  { scene_state := some {},
    live_overrides := some loW10,
    position := { step := 7 },
    playback_state := PlaybackState.playing,
    pending := none }

/-- Witness for C10 at a concrete state with a non-trivial override layer. -/
theorem set_bpm_frame_witness :
    ((stateW10.set_bpm 140).1.position = stateW10.position ∧
     (stateW10.set_bpm 140).1.playback_state = stateW10.playback_state ∧
     (stateW10.set_bpm 140).1.pending = stateW10.pending ∧
     (stateW10.set_bpm 140).1.scene_state = stateW10.scene_state ∧
     (stateW10.set_bpm 140).1.active_scene_name = stateW10.active_scene_name) ∧
    (∃ lo', (stateW10.set_bpm 140).1.live_overrides = some lo' ∧
      lo'.tracks = loW10.tracks ∧ lo'.tracks_midi = loW10.tracks_midi ∧
      lo'.mixer_lines = loW10.mixer_lines ∧ lo'.sequences = loW10.sequences ∧
      lo'.scenes = loW10.scenes ∧ lo'.apply = loW10.apply) := by
  obtain ⟨h1, h2, h3, h4, h5, h6⟩ := set_bpm_frame stateW10 140
  exact ⟨⟨h1, h2, h3, h4, h5⟩, h6 loW10 rfl⟩

/-- Concrete valid batch for C1 (one message at step 3). -/
def batchC1 : ScheduledMessageBatch :=
  { messages :=
      [{ destination_id := "superdirt", cycle := 0, step := 3,
         params := [("s", PVal.str "bd")] }],
    bpm := 130, pattern_length := 4 }

/-- Concrete engine with destinations loaded for C1. -/
def engineC1 : LoopEngine := { destinations_loaded := true }

/-- C1 (code bug): with destinations loaded and a well-formed batch,
`_handle_session` loads the batch into the message scheduler and then raises
`AttributeError` out of the handler at `self.state.bpm = batch.bpm`
(`RuntimeState.bpm` is a property with no setter), so it neither updates the
BPM nor returns a success result — contradicting the claim (and spec)
that it sets the BPM and always returns a result. -/
theorem handle_session_raises_attribute_error :
    (engineC1.handle_session (Except.ok batchC1)).2
      = Except.error PyErr.attributeError ∧
    (engineC1.handle_session (Except.ok batchC1)).1.message_scheduler.get_messages_at_step 3
      = batchC1.messages := by
  exact ⟨rfl, rfl⟩

/-- Concrete session for C5: two tracks with events. -/
def sessionC5base : CompiledSession :=
  { tracks :=
      [("kick", { meta := { track_id := "kick" }, params := { s := "bd" } }),
       ("hihat", { meta := { track_id := "hihat" }, params := { s := "hh" } })],
    sequences :=
      [("kick", { track_id := "kick", events := [{ step := 0 }] }),
       ("hihat", { track_id := "hihat", events := [{ step := 4 }] })] }

/-- Concrete exclusive-apply session for C5: a new `kick` track and
sequence. -/
def sessionC5new : CompiledSession :=
  { tracks :=
      [("kick", { meta := { track_id := "kick" }, params := { s := "bd2" } })],
    sequences :=
      [("kick", { track_id := "kick", events := [{ step := 8 }] })] }

/-- Concrete runtime state for C5: the base session loaded as scene state and
a pending exclusive apply (`timing = now`, `track_ids = ["kick"]`). -/
def stateC5 : RuntimeState :=
  { scene_state := some sessionC5base,
    pending := some
      { timing := ApplyTiming.now, session := sessionC5new,
        track_ids := ["kick"], scene_name := none, received_at := 0 } }

/-- C5 (code bug): executing the pending exclusive apply raises
`AttributeError` (inside `_merge_track`, which reads the non-existent
`TrackParams.orbit` while the effective state is recomputed), instead of
producing an effective session where `kick` carries the new events and
`hihat` keeps its definition with an empty sequence; the second conjunct
confirms the pending was due to fire at this state. -/
theorem execute_pending_partial_raises :
    (stateC5.execute_pending).2 = Except.error PyErr.attributeError ∧
    stateC5.should_apply_pending = true := by
  exact ⟨rfl, rfl⟩

/-- A freshly constructed engine (all `__init__` defaults). -/
def engine0 : LoopEngine := {}

/-- C2 (counterexample): calling `start()` twice does not leave the engine in
the state one call produces — the second call re-runs every connect, the
handler registration and the destination load (here visible on the OSC
connect count: 2 after a double start, 1 after a single start). -/
theorem start_twice_not_noop :
    ¬ ((engine0.start true DestLoadOutcome.loaded).start true DestLoadOutcome.loaded
        = engine0.start true DestLoadOutcome.loaded) := by
  intro h
  have h2 := congrArg LoopEngine.osc_connect_count h
  exact absurd h2 (by decide)

/-- C2 (amended): `start()` has no started-guard; a second call repeats the
startup work — it reconnects the senders, the command source and the
telemetry sink, registers every command handler again and reloads the
destination configuration. -/
theorem start_repeats_startup_effects (e : LoopEngine) (m1 m2 : Bool)
    (d1 d2 : DestLoadOutcome) :
    ((e.start m1 d1).start m2 d2).osc_connect_count = e.osc_connect_count + 2 ∧
    ((e.start m1 d1).start m2 d2).midi_connect_count = e.midi_connect_count + 2 ∧
    ((e.start m1 d1).start m2 d2).commands_connect_count
      = e.commands_connect_count + 2 ∧
    ((e.start m1 d1).start m2 d2).publisher_connect_count
      = e.publisher_connect_count + 2 ∧
    ((e.start m1 d1).start m2 d2).registered_handlers
      = e.registered_handlers ++ LoopEngine.handlerNames ++ LoopEngine.handlerNames ∧
    ((e.start m1 d1).start m2 d2).load_destinations_calls
      = e.load_destinations_calls + 2 := by
  cases d1 <;> cases d2 <;>
    refine ⟨?_, ?_, ?_, ?_, ?_, ?_⟩ <;>
      simp [LoopEngine.start, LoopEngine.load_destinations]

end Oiduna
